import Mathlib

/-!
Shallow embedding of the solunar / pike-activity core of the
weather-wallpaper repository, together with theorems checking the
natural-language specification against it.

Conventions of the embedding:
* JavaScript `Date` values are modelled by their epoch value in
  milliseconds, as an `Int` (all comparisons and arithmetic the source
  performs on dates go through `getTime()`).
* JavaScript `number` values that can carry fractions (pressures, wind
  speeds, cloud cover, moon phase fractions, altitudes) are modelled by `ℚ`.
* JavaScript `Infinity` (used as a "no upcoming period" distance and as the
  initial running maximum `-Infinity`) is modelled by `Option` (`none` is the
  infinite value), with the comparison semantics spelled out explicitly.
* Fallible values (`Date | null`) are modelled by `Option Int`.
* The string union types (`PressureTrend`, period type tags, golden-hour
  type) are modelled as `String`, mirroring the source's `===` comparisons
  on string literals.
-/

/- ================================================================
   JavaScript numeric primitives used by the source
   ================================================================ -/

/-- JavaScript truncation toward zero, as used by the `%` operator:
`Math.trunc(x)`. -/
def jsTrunc (x : ℚ) : Int := if x < 0 then Int.ceil x else Int.floor x

/-- JavaScript `x % 1`: remainder with the sign of the dividend,
`x - Math.trunc(x)` for divisor 1. -/
def jsMod1 (x : ℚ) : ℚ := x - (jsTrunc x : ℚ)

/-- JavaScript `Math.round`: floor of `x + 1/2` (half-up, toward `+∞`). -/
def jsRound (x : ℚ) : Int := Int.floor (x + 1/2)

/- ================================================================
   Solunar module (src/unnamed/part_000, the repository's solunar.ts)
   ================================================================ -/

/-- Moon data (`MoonData` in solunar.ts).  `phaseName` is one of the 8
fixed French strings produced by `getMoonPhaseName`. -/
structure MoonData where
  phase : ℚ
  phaseName : String
  illumination : Int
  rise : Option Int
  set : Option Int
deriving DecidableEq

/-- Sun data (`SunData` in solunar.ts). -/
structure SunData where
  rise : Int
  set : Int
deriving DecidableEq

/-- A solunar period.  The source distinguishes `MajorPeriod`
(type `'transit' | 'nadir'`) and `MinorPeriod` (type `'moonrise' |
'moonset'`) structurally; both are `{start, end, type}` records and the
scorer consumes either through the structural `{start, end}` shape
(`SolunarPeriod`).  The source field `end` is a Lean keyword and is
rendered `endTime`. -/
structure SolunarPeriod where
  start : Int
  endTime : Int
  type : String
deriving DecidableEq

/-- Complete solunar data (`SolunarData` in solunar.ts). -/
structure SolunarData where
  moon : MoonData
  sun : SunData
  major : List SolunarPeriod
  minor : List SolunarPeriod
deriving DecidableEq

/-- The function `getMoonPhaseName` (solunar.ts lines 75–98): wraps the phase by
`((phase % 1) + 1) % 1` and classifies it by the fixed 1/16-offset
boundaries with strict `<`. -/
def getMoonPhaseName (phase : ℚ) : String :=
  let normalizedPhase := jsMod1 (jsMod1 phase + 1)
  if normalizedPhase < 0.0625 then "Nouvelle lune"
  else if normalizedPhase < 0.1875 then "Premier croissant"
  else if normalizedPhase < 0.3125 then "Premier quartier"
  else if normalizedPhase < 0.4375 then "Gibbeuse croissante"
  else if normalizedPhase < 0.5625 then "Pleine lune"
  else if normalizedPhase < 0.6875 then "Gibbeuse décroissante"
  else if normalizedPhase < 0.8125 then "Dernier quartier"
  else if normalizedPhase < 0.9375 then "Dernier croissant"
  else "Nouvelle lune"

/-- The function `createTimeWindow` (solunar.ts lines 106–115): window of
`durationMinutes` minutes centred on `center`.  Both call sites pass an
even number of minutes (120 and 60), so the JavaScript real division
`durationMinutes / 2` agrees with integer division. -/
def createTimeWindow (center : Int) (durationMinutes : Int) : Int × Int :=
  let halfDuration := durationMinutes / 2 * 60 * 1000
  (center - halfDuration, center + halfDuration)

/-- One step of the running-maximum loops of `findMoonTransit`: the state
is `(maxAltitude, transitTime)` where `none` models the initial
`-Infinity` / `null` pair, and the update fires on strict `>`. -/
def scanStep (alt : Int → ℚ) (s : Option ℚ × Option Int) (t : Int) :
    Option ℚ × Option Int :=
  match s.1 with
  | none => (some (alt t), some t)
  | some m => if m < alt t then (some (alt t), some t) else s

/-- A running-maximum scan over a list of sample instants, from the
initial state `(-Infinity, null)`. -/
def scanMax (alt : Int → ℚ) (ts : List Int) : Option ℚ × Option Int :=
  ts.foldl (scanStep alt) (none, none)

/-- The coarse sample grid of `findMoonTransit`: every 10 minutes over the
full day from local midnight (`for (minutes = 0; minutes < 24*60;
minutes += 10)`), i.e. 144 samples. -/
def coarseTimes (startOfDay : Int) : List Int :=
  (List.range 144).map (fun (i : Nat) => startOfDay + (10 * (i : Int)) * 60 * 1000)

/-- The refinement sample grid of `findMoonTransit`: every minute from
`center - 10min` to `center + 10min` inclusive, i.e. 21 samples. -/
def refineTimes (center : Int) : List Int :=
  (List.range 21).map (fun (i : Nat) => center - 10 * 60 * 1000 + (i : Int) * 60 * 1000)

/-- The function `findMoonTransit` (solunar.ts lines 125–170).  The external
`SunCalc.getMoonPosition(t, lat, lon).altitude` sampler is abstracted as
`alt`, and the local midnight the source computes with
`setHours(0,0,0,0)` as `startOfDay`.  The refinement loop initialises
`refinedTransit` to the coarse transit, modelled by `getD`. -/
def findMoonTransit (alt : Int → ℚ) (startOfDay : Int) : Option Int :=
  match (scanMax alt (coarseTimes startOfDay)).2 with
  | none => none
  | some transitTime =>
    some (((scanMax alt (refineTimes transitTime)).2).getD transitTime)

/-- The external astronomical provider data consumed by
`getSolunarData`: the `SunCalc` results for the reference date and
position, plus the local midnight of the reference date. -/
structure AstroProvider where
  moonAltitude : Int → ℚ
  moonPhase : ℚ
  moonFraction : ℚ
  moonRise : Option Int
  moonSet : Option Int
  sunriseTime : Int
  sunsetTime : Int
  startOfDay : Int

/-- The function `getSolunarData` (solunar.ts lines 183–261), with the `SunCalc` calls
abstracted into the provider record.  Array construction by conditional
`push` is rendered as conditional list append in the source order:
transit then nadir, moonrise then moonset. -/
def getSolunarData (p : AstroProvider) : SolunarData :=
  let moon : MoonData :=
    { phase := p.moonPhase
      phaseName := getMoonPhaseName p.moonPhase
      illumination := jsRound (p.moonFraction * 100)
      rise := p.moonRise
      set := p.moonSet }
  let sun : SunData := { rise := p.sunriseTime, set := p.sunsetTime }
  let transit := findMoonTransit p.moonAltitude p.startOfDay
  let major : List SolunarPeriod :=
    match transit with
    | none => []
    | some t =>
      let transitWindow := createTimeWindow t 120
      let nadir := t + 12 * 60 * 60 * 1000
      let nadirWindow := createTimeWindow nadir 120
      [{ start := transitWindow.1, endTime := transitWindow.2, type := "transit" },
       { start := nadirWindow.1, endTime := nadirWindow.2, type := "nadir" }]
  let minor : List SolunarPeriod :=
    (match moon.rise with
     | some c =>
       let w := createTimeWindow c 60
       [{ start := w.1, endTime := w.2, type := "moonrise" }]
     | none => []) ++
    (match moon.set with
     | some c =>
       let w := createTimeWindow c 60
       [{ start := w.1, endTime := w.2, type := "moonset" }]
     | none => [])
  { moon := moon, sun := sun, major := major, minor := minor }

/- ================================================================
   Weather module (src/lib/weather.ts)
   ================================================================ -/

/-- The function `calculatePressureTrend` (weather.ts lines 87–113).  The guard
`threeHoursAgoIndex < 0 || !pressureHistory[threeHoursAgoIndex]` treats an
out-of-range index (JavaScript `undefined`) and a recorded value of `0`
(both falsy) as missing history.  `NaN`, the remaining falsy number, has
no counterpart in the `ℚ` model. -/
def calculatePressureTrend (currentPressure : ℚ) (pressureHistory : List ℚ)
    (currentTimeIndex : Int) : String :=
  let threeHoursAgoIndex := currentTimeIndex - 3
  if threeHoursAgoIndex < 0 then "stable"
  else
    match pressureHistory.get? threeHoursAgoIndex.toNat with
    | none => "stable"
    | some pastPressure =>
      if pastPressure = 0 then "stable"
      else
        let difference := currentPressure - pastPressure
        let threshold : ℚ := 1
        if difference > threshold then "rising"
        else if difference < -threshold then "falling"
        else "stable"

/- ================================================================
   Activity module (src/lib/activity.ts)
   ================================================================ -/

/-- Current weather conditions (`CurrentWeather` in weather.ts). -/
structure CurrentWeather where
  temperature : ℚ
  feelsLike : ℚ
  windSpeed : ℚ
  windDirection : ℚ
  windGusts : ℚ
  pressure : ℚ
  cloudCover : ℚ
  precipitation : ℚ
  weatherCode : ℚ
deriving DecidableEq

/-- Weather data as consumed by the scorer (`WeatherData` in weather.ts;
the hourly forecast list plays no role in the scorer and is omitted).
`pressureTrend` is the string produced by `calculatePressureTrend`. -/
structure WeatherData where
  current : CurrentWeather
  pressureTrend : String
deriving DecidableEq

/-- Result of `getMinutesUntilPeriod`: `minutes = none` models the
JavaScript `Infinity` returned when every period is past. -/
structure MinutesStatus where
  minutes : Option Int
  isOngoing : Bool
deriving DecidableEq

/-- Comparison `m <= k` on the possibly-infinite minute count: `Infinity <= k` is
false for every finite `k`. -/
def minutesLE (m : Option Int) (k : Int) : Bool :=
  match m with
  | none => false
  | some v => decide (v ≤ k)

/-- The function `getMinutesUntilPeriod` (activity.ts lines 21–37): scan the period
list in order; a period containing `currentTime` yields distance 0 and
`isOngoing`, a period starting strictly in the future yields the floored
whole-minute distance to its start, and exhaustion yields `Infinity`.
The millisecond difference is positive in the second branch, where
`Math.floor` coincides with integer division by 60000. -/
def getMinutesUntilPeriod (periods : List SolunarPeriod) (currentTime : Int) :
    MinutesStatus :=
  match periods with
  | [] => { minutes := none, isOngoing := false }
  | period :: rest =>
    if period.start ≤ currentTime ∧ currentTime ≤ period.endTime then
      { minutes := some 0, isOngoing := true }
    else if currentTime < period.start then
      { minutes := some ((period.start - currentTime) / (1000 * 60))
        isOngoing := false }
    else getMinutesUntilPeriod rest currentTime

/-- Result of `checkGoldenHour`: `type` is `'morning'`, `'evening'` or
`null`. -/
structure GoldenStatus where
  isGolden : Bool
  type : Option String
deriving DecidableEq

/-- The function `checkGoldenHour` (activity.ts lines 44–64): morning window
`[sunrise, sunrise + 2h]` checked first, then evening window
`[sunset - 2h, sunset]`, both closed. -/
def checkGoldenHour (currentTime sunrise sunset : Int) : GoldenStatus :=
  let twoHoursMs : Int := 2 * 60 * 60 * 1000
  let sunriseEnd := sunrise + twoHoursMs
  if sunrise ≤ currentTime ∧ currentTime ≤ sunriseEnd then
    { isGolden := true, type := some "morning" }
  else
    let sunsetStart := sunset - twoHoursMs
    if sunsetStart ≤ currentTime ∧ currentTime ≤ sunset then
      { isGolden := true, type := some "evening" }
    else { isGolden := false, type := none }

/-- Rule 1 of `calculatePikeActivity` (activity.ts lines 77–87): pressure
trend.  The accumulator is the `(score, factors)` pair the source mutates;
`factors.push` is list append on the right. -/
def pressureRule (pressureTrend : String) (acc : Int × List String) :
    Int × List String :=
  if pressureTrend = "stable" then (acc.1 + 2, acc.2 ++ ["Pression stable"])
  else if pressureTrend = "rising" then (acc.1 + 1, acc.2 ++ ["Pression en hausse"])
  else if pressureTrend = "falling" then (acc.1 - 1, acc.2 ++ ["Pression en baisse"])
  else acc

/-- Rule 2 of `calculatePikeActivity` (activity.ts lines 89–102): solunar
period proximity, major before minor. -/
def solunarRule (solunar : SolunarData) (currentTime : Int)
    (acc : Int × List String) : Int × List String :=
  let majorStatus := getMinutesUntilPeriod solunar.major currentTime
  let minorStatus := getMinutesUntilPeriod solunar.minor currentTime
  if majorStatus.isOngoing || minutesLE majorStatus.minutes 30 then
    (acc.1 + 2, acc.2 ++ ["Période majeure"])
  else if minutesLE majorStatus.minutes 120 then
    (acc.1 + 1, acc.2 ++ ["Majeure proche"])
  else if minorStatus.isOngoing || minutesLE minorStatus.minutes 30 then
    (acc.1 + 1, acc.2 ++ ["Période mineure"])
  else acc

/-- Rule 3 of `calculatePikeActivity` (activity.ts lines 104–109): golden
hour. -/
def goldenRule (goldenHour : GoldenStatus) (acc : Int × List String) :
    Int × List String :=
  if goldenHour.isGolden then
    (acc.1 + 1,
     acc.2 ++ [if goldenHour.type = some "morning" then "Golden hour matin"
               else "Golden hour soir"])
  else acc

/-- Rule 4 of `calculatePikeActivity` (activity.ts lines 111–119): wind. -/
def windRule (windSpeed : ℚ) (acc : Int × List String) : Int × List String :=
  if 8 ≤ windSpeed ∧ windSpeed ≤ 20 then (acc.1 + 1, acc.2 ++ ["Vent favorable"])
  else if 30 < windSpeed then (acc.1 - 1, acc.2 ++ ["Vent trop fort"])
  else acc

/-- Rule 5 of `calculatePikeActivity` (activity.ts lines 121–125): cloud
cover. -/
def cloudRule (cloudCover : ℚ) (acc : Int × List String) : Int × List String :=
  if 70 < cloudCover then (acc.1 + 1, acc.2 ++ ["Temps couvert"]) else acc

/-- The label/colour table of `calculatePikeActivity` (activity.ts lines
131–138).  The source `Record` is defined exactly on the keys 0–5 and is
only consulted at the clamped score; the final arm repeats the key-5 entry
to make the Lean function total. -/
def config (score : Int) : String × String :=
  if score = 0 then ("Mauvais", "#dc2626")
  else if score = 1 then ("Faible", "#ef4444")
  else if score = 2 then ("Moyen", "#f97316")
  else if score = 3 then ("Bon", "#fbbf24")
  else if score = 4 then ("Très bon", "#84cc16")
  else ("Excellent", "#22c55e")

/-- Result record of the scorer (`ActivityData` in activity.ts). -/
structure ActivityData where
  score : Int
  label : String
  mainFactor : String
  color : String
  isGoldenHour : Bool
deriving DecidableEq

/-- The function `calculatePikeActivity` (activity.ts lines 69–147): base score 2, the
five rules in source order, clamp to `[0, 5]`, table lookup, and
`factors[0] || 'Conditions neutres'` (every pushed factor string is
non-empty, so `[0]`-or-default is head-or-default). -/
def calculatePikeActivity (weather : WeatherData) (solunar : SolunarData)
    (currentTime : Int) : ActivityData :=
  let acc0 : Int × List String := (2, [])
  let acc1 := pressureRule weather.pressureTrend acc0
  let acc2 := solunarRule solunar currentTime acc1
  let goldenHour := checkGoldenHour currentTime solunar.sun.rise solunar.sun.set
  let acc3 := goldenRule goldenHour acc2
  let acc4 := windRule weather.current.windSpeed acc3
  let acc5 := cloudRule weather.current.cloudCover acc4
  let score := max 0 (min 5 acc5.1)
  { score := score
    label := (config score).1
    color := (config score).2
    mainFactor := acc5.2.head?.getD "Conditions neutres"
    isGoldenHour := goldenHour.isGolden }

/- ================================================================
   Specification-side definitions (written from the spec's wording, for
   the refinement-style claims) and concrete fixtures
   ================================================================ -/

/-- The spec's 6-entry score table keyed by the clamped integer score
(French label strings as produced by the source; `none` outside the
clamped range `[0, 5]`). -/
def scoreTableSpec (score : Int) : Option (String × String) :=
  if score = 0 then some ("Mauvais", "#dc2626")
  else if score = 1 then some ("Faible", "#ef4444")
  else if score = 2 then some ("Moyen", "#f97316")
  else if score = 3 then some ("Bon", "#fbbf24")
  else if score = 4 then some ("Très bon", "#84cc16")
  else if score = 5 then some ("Excellent", "#22c55e")
  else none

/-- The spec's description of the period-distance computation: distance 0
flagged ongoing when `now` lies in the first period containing it,
otherwise the floored whole-minute distance to the start of the first
period whose start is strictly after `now`, otherwise infinite. -/
def specDistance (periods : List SolunarPeriod) (now : Int) : MinutesStatus :=
  match periods.find? (fun p => decide (p.start ≤ now ∧ now ≤ p.endTime)) with
  | some _ => { minutes := some 0, isOngoing := true }
  | none =>
    match periods.find? (fun p => decide (now < p.start)) with
    | some p =>
      { minutes := some ((p.start - now) / (1000 * 60)), isOngoing := false }
    | none => { minutes := none, isOngoing := false }

/-- The spec's description of the solunar scoring sub-rules: major ongoing
or within 30 minutes adds +2, else major within 120 minutes adds +1, else
minor ongoing or within 30 minutes adds +1, else nothing; at most one
sub-rule fires. -/
def specSolunarContribution (majorStatus minorStatus : MinutesStatus) :
    Int × List String :=
  if majorStatus.isOngoing || minutesLE majorStatus.minutes 30 then
    (2, ["Période majeure"])
  else if minutesLE majorStatus.minutes 120 then (1, ["Majeure proche"])
  else if minorStatus.isOngoing || minutesLE minorStatus.minutes 30 then
    (1, ["Période mineure"])
  else (0, [])

/-- The spec's description of the reported main factor: the factor string
of the first rule that fires in the fixed rule order (pressure trend,
solunar proximity, golden hour, wind, cloud cover), or the neutral
fallback string when no rule fires. -/
def specMainFactor (weather : WeatherData) (solunar : SolunarData)
    (now : Int) : String :=
  let majorStatus := getMinutesUntilPeriod solunar.major now
  let minorStatus := getMinutesUntilPeriod solunar.minor now
  let goldenHour := checkGoldenHour now solunar.sun.rise solunar.sun.set
  if weather.pressureTrend = "stable" then "Pression stable"
  else if weather.pressureTrend = "rising" then "Pression en hausse"
  else if weather.pressureTrend = "falling" then "Pression en baisse"
  else if majorStatus.isOngoing || minutesLE majorStatus.minutes 30 then
    "Période majeure"
  else if minutesLE majorStatus.minutes 120 then "Majeure proche"
  else if minorStatus.isOngoing || minutesLE minorStatus.minutes 30 then
    "Période mineure"
  else if goldenHour.isGolden then
    (if goldenHour.type = some "morning" then "Golden hour matin"
     else "Golden hour soir")
  else if 8 ≤ weather.current.windSpeed ∧ weather.current.windSpeed ≤ 20 then
    "Vent favorable"
  else if 30 < weather.current.windSpeed then "Vent trop fort"
  else if 70 < weather.current.cloudCover then "Temps couvert"
  else "Conditions neutres"

/-- The spec's 8-category moon-phase table over the wrapped phase, with
boundaries at odd multiples of 1/16 and each boundary belonging to the
next category. -/
def specPhaseTable (n : ℚ) : String :=
  if n < 1/16 then "Nouvelle lune"
  else if n < 3/16 then "Premier croissant"
  else if n < 5/16 then "Premier quartier"
  else if n < 7/16 then "Gibbeuse croissante"
  else if n < 9/16 then "Pleine lune"
  else if n < 11/16 then "Gibbeuse décroissante"
  else if n < 13/16 then "Dernier quartier"
  else if n < 15/16 then "Dernier croissant"
  else "Nouvelle lune"

/-- A synthetic altitude curve with a single known maximum at instant
`peak`: the negated absolute distance to `peak`, in milliseconds. -/
def syntheticAlt (peak : Int) (t : Int) : ℚ := ((-(t - peak).natAbs : Int) : ℚ)

/-- Weather fixture on which no scoring rule fires: unrecognised pressure
trend, wind in the dead zone, cloud cover below the threshold. -/
def neutralWeather : WeatherData :=
  { current := { temperature := 0, feelsLike := 0, windSpeed := 0
                 windDirection := 0, windGusts := 0, pressure := 0
                 cloudCover := 0, precipitation := 0, weatherCode := 0 }
    pressureTrend := "" }

/-- Solunar fixture with no periods and the given sun times. -/
def sunOnlySolunar (sunrise sunset : Int) : SolunarData :=
  { moon := { phase := 0, phaseName := "", illumination := 0
              rise := none, set := none }
    sun := { rise := sunrise, set := sunset }
    major := []
    minor := [] }

/-- Weather fixture driving the score to 0: falling pressure and wind
above 30. -/
def lowScoreWeather : WeatherData :=
  { current := { temperature := 0, feelsLike := 0, windSpeed := 40
                 windDirection := 0, windGusts := 0, pressure := 0
                 cloudCover := 0, precipitation := 0, weatherCode := 0 }
    pressureTrend := "falling" }

/-- Provider fixture with a constant altitude curve and moonrise before
moonset. -/
def chronoProvider : AstroProvider :=
  { moonAltitude := fun _ => 0, moonPhase := 0, moonFraction := 0
    moonRise := some 36000000, moonSet := some 72000000
    sunriseTime := 21600000, sunsetTime := 64800000, startOfDay := 0 }

/-- Provider fixture whose moonset (02:00) precedes its moonrise (10:00)
on the reference day. -/
def invertedMoonProvider : AstroProvider :=
  { moonAltitude := fun _ => 0, moonPhase := 0, moonFraction := 0
    moonRise := some 36000000, moonSet := some 7200000
    sunriseTime := 21600000, sunsetTime := 64800000, startOfDay := 0 }

/-- A chronologically ordered two-period fixture. -/
def sortedPeriods : List SolunarPeriod :=
  [{ start := 0, endTime := 600000, type := "transit" },
   { start := 1200000, endTime := 1800000, type := "nadir" }]

/-- The additive contribution `(score delta, factors pushed)` of the
pressure rule, as the spec describes it. -/
def pressureDelta (pressureTrend : String) : Int × List String :=
  if pressureTrend = "stable" then (2, ["Pression stable"])
  else if pressureTrend = "rising" then (1, ["Pression en hausse"])
  else if pressureTrend = "falling" then (-1, ["Pression en baisse"])
  else (0, [])

/-- The additive contribution of the solunar rule: the spec's sub-rule
table applied to the two period distances. -/
def solunarDelta (solunar : SolunarData) (now : Int) : Int × List String :=
  specSolunarContribution (getMinutesUntilPeriod solunar.major now)
    (getMinutesUntilPeriod solunar.minor now)

/-- The additive contribution of the golden-hour rule. -/
def goldenDelta (g : GoldenStatus) : Int × List String :=
  if g.isGolden then
    (1, [if g.type = some "morning" then "Golden hour matin"
         else "Golden hour soir"])
  else (0, [])

/-- The additive contribution of the wind rule. -/
def windDelta (windSpeed : ℚ) : Int × List String :=
  if 8 ≤ windSpeed ∧ windSpeed ≤ 20 then (1, ["Vent favorable"])
  else if 30 < windSpeed then (-1, ["Vent trop fort"])
  else (0, [])

/-- The additive contribution of the cloud-cover rule. -/
def cloudDelta (cloudCover : ℚ) : Int × List String :=
  if 70 < cloudCover then (1, ["Temps couvert"]) else (0, [])

/- ================================================================
   Helper lemmas and claim theorems
   ================================================================ -/

lemma scoreTableSpec_eq_config (n : Int) (h0 : 0 ≤ n) (h5 : n ≤ 5) :
    scoreTableSpec n = some (config n) := by
  interval_cases n <;> rfl

/- ==== C10 ==== -/

/-- C10: a recorded pressure of exactly 0 three samples prior is treated
as missing history by the falsy guard, so the trend is `stable` regardless
of the current pressure. -/
theorem c10_zero_history_stable (currentPressure : ℚ)
    (pressureHistory : List ℚ) (currentTimeIndex : Int)
    (hnn : 0 ≤ currentTimeIndex - 3)
    (h : pressureHistory.get? (currentTimeIndex - 3).toNat = some 0) :
    calculatePressureTrend currentPressure pressureHistory currentTimeIndex
      = "stable" := by
  unfold calculatePressureTrend
  rw [if_neg (by omega), h]
  simp

/-- Witness for C10 at a concrete input. -/
theorem c10_zero_history_stable_witness :
    0 ≤ (3 : Int) - 3 ∧
    ([0, 995, 996, 997] : List ℚ).get? ((3 : Int) - 3).toNat = some 0 ∧
    calculatePressureTrend 900 [0, 995, 996, 997] 3 = "stable" :=
  ⟨by decide, by decide,
   c10_zero_history_stable 900 [0, 995, 996, 997] 3 (by decide) (by decide)⟩

/- ==== C9 ==== -/

/-- C9 counterexample: the recorded pressure 3 samples prior exists and is
0, the difference 1020 − 0 exceeds +1 hPa, yet the code classifies the
trend as `stable`, not `rising`, because the falsy guard discards the 0. -/
theorem c9_counterexample :
    ([0, 0, 0, 0] : List ℚ).get? ((3 : Int) - 3).toNat = some 0 ∧
    (1020 : ℚ) - 0 > 1 ∧
    calculatePressureTrend 1020 [0, 0, 0, 0] 3 = "stable" ∧
    "stable" ≠ "rising" :=
  ⟨by decide, by norm_num, by decide, by decide⟩

/-- C9 amended: when the recorded pressure exactly 3 samples prior exists
and is nonzero, the ±1 hPa difference rule applies; when the index is out
of range, the entry is missing, or the entry is 0, the result is `stable`;
the function is total. -/
theorem c9_pressure_trend (currentPressure : ℚ) (pressureHistory : List ℚ)
    (currentTimeIndex : Int) :
    (∀ p : ℚ, 0 ≤ currentTimeIndex - 3 →
      pressureHistory.get? (currentTimeIndex - 3).toNat = some p → p ≠ 0 →
      calculatePressureTrend currentPressure pressureHistory currentTimeIndex
        = (if currentPressure - p > 1 then "rising"
           else if currentPressure - p < -1 then "falling" else "stable")) ∧
    (currentTimeIndex - 3 < 0 →
      calculatePressureTrend currentPressure pressureHistory currentTimeIndex
        = "stable") ∧
    (pressureHistory.get? (currentTimeIndex - 3).toNat = none →
      calculatePressureTrend currentPressure pressureHistory currentTimeIndex
        = "stable") ∧
    (pressureHistory.get? (currentTimeIndex - 3).toNat = some 0 →
      calculatePressureTrend currentPressure pressureHistory currentTimeIndex
        = "stable") := by
  refine ⟨?_, ?_, ?_, ?_⟩
  · intro p hnn hget hp
    unfold calculatePressureTrend
    rw [if_neg (by omega), hget]
    simp [hp]
  · intro hneg
    unfold calculatePressureTrend
    rw [if_pos (by omega)]
  · intro hget
    unfold calculatePressureTrend
    by_cases hneg : currentTimeIndex - 3 < 0
    · rw [if_pos hneg]
    · rw [if_neg hneg, hget]
  · intro hget
    unfold calculatePressureTrend
    by_cases hneg : currentTimeIndex - 3 < 0
    · rw [if_pos hneg]
    · rw [if_neg hneg, hget]
      simp

/-- Witness for the amended C9 at a concrete input. -/
theorem c9_pressure_trend_witness :
    0 ≤ (3 : Int) - 3 ∧
    ([1000, 0, 0, 0] : List ℚ).get? ((3 : Int) - 3).toNat = some 1000 ∧
    (1000 : ℚ) ≠ 0 ∧
    calculatePressureTrend 1010 [1000, 0, 0, 0] 3
      = (if (1010 : ℚ) - 1000 > 1 then "rising"
         else if (1010 : ℚ) - 1000 < -1 then "falling" else "stable") :=
  ⟨by decide, by decide, by decide,
   (c9_pressure_trend 1010 [1000, 0, 0, 0] 3).1 1000 (by decide) (by decide)
     (by decide)⟩

/- ==== C1 ==== -/

/-- C1 counterexample: a concrete input whose clamped score is 0, for
which the returned label is the French `"Mauvais"`, not `"Poor"` as the
claim's table states. -/
theorem c1_counterexample :
    (calculatePikeActivity lowScoreWeather (sunOnlySolunar 0 0)
        10000000000).score = 0 ∧
    (calculatePikeActivity lowScoreWeather (sunOnlySolunar 0 0)
        10000000000).label ≠ "Poor" ∧
    (calculatePikeActivity lowScoreWeather (sunOnlySolunar 0 0)
        10000000000).label = "Mauvais" := by
  refine ⟨by decide, by decide, by decide⟩

/-- C1 amended: the score is an integer clamped to `[0, 5]` and the label
and colour are exactly the entries of the fixed 6-entry table keyed by the
clamped score — 0 `Mauvais`/#dc2626, 1 `Faible`/#ef4444, 2 `Moyen`/#f97316,
3 `Bon`/#fbbf24, 4 `Très bon`/#84cc16, 5 `Excellent`/#22c55e. -/
theorem c1_score_clamped_and_table (weather : WeatherData)
    (solunar : SolunarData) (currentTime : Int) :
    0 ≤ (calculatePikeActivity weather solunar currentTime).score ∧
    (calculatePikeActivity weather solunar currentTime).score ≤ 5 ∧
    scoreTableSpec (calculatePikeActivity weather solunar currentTime).score
      = some ((calculatePikeActivity weather solunar currentTime).label,
              (calculatePikeActivity weather solunar currentTime).color) := by
  have h0 : 0 ≤ (calculatePikeActivity weather solunar currentTime).score :=
    le_max_left 0 _
  have h5 : (calculatePikeActivity weather solunar currentTime).score ≤ 5 := by
    refine max_le (by norm_num) (min_le_left 5 _)
  refine ⟨h0, h5, ?_⟩
  rw [scoreTableSpec_eq_config _ h0 h5]
  rfl

/- ==== C8 ==== -/

/-- C8: golden-hour membership is exactly the union of the closed morning
window `[sunrise, sunrise + 2h]` (checked first, so it wins when both
hold) and the closed evening window `[sunset − 2h, sunset]`; the scorer's
flag equals the membership test, and with every other rule neutral the
membership contributes exactly +1 to the score. -/
theorem c8_golden_hour :
    (∀ currentTime sunrise sunset : Int,
      ((checkGoldenHour currentTime sunrise sunset).isGolden = true ↔
        ((sunrise ≤ currentTime ∧ currentTime ≤ sunrise + 7200000) ∨
         (sunset - 7200000 ≤ currentTime ∧ currentTime ≤ sunset))) ∧
      ((checkGoldenHour currentTime sunrise sunset).type = some "morning" ↔
        (sunrise ≤ currentTime ∧ currentTime ≤ sunrise + 7200000))) ∧
    (∀ (weather : WeatherData) (solunar : SolunarData) (currentTime : Int),
      (calculatePikeActivity weather solunar currentTime).isGoldenHour
        = (checkGoldenHour currentTime solunar.sun.rise
            solunar.sun.set).isGolden) ∧
    (∀ sunrise sunset currentTime : Int,
      (calculatePikeActivity neutralWeather (sunOnlySolunar sunrise sunset)
          currentTime).score
        = (if (checkGoldenHour currentTime sunrise sunset).isGolden
           then 3 else 2)) := by
  refine ⟨?_, ?_, ?_⟩
  · intro currentTime sunrise sunset
    constructor
    · simp only [checkGoldenHour]
      split_ifs with h1 h2 <;> simp_all
    · simp only [checkGoldenHour]
      split_ifs with h1 h2 <;> simp_all
  · intro weather solunar currentTime
    rfl
  · intro sunrise sunset currentTime
    show max 0 (min 5 _) = _
    simp only [calculatePikeActivity, pressureRule, solunarRule, goldenRule,
      windRule, cloudRule, neutralWeather, sunOnlySolunar,
      getMinutesUntilPeriod, minutesLE]
    norm_num
    split_ifs <;> simp_all


/- ==== stage decomposition lemmas ==== -/

lemma pressureRule_eq (t : String) (acc : Int × List String) :
    pressureRule t acc = (acc.1 + (pressureDelta t).1, acc.2 ++ (pressureDelta t).2) := by
  unfold pressureRule pressureDelta
  split_ifs <;> simp [sub_eq_add_neg]

lemma solunarRule_eq (s : SolunarData) (now : Int) (acc : Int × List String) :
    solunarRule s now acc
      = (acc.1 + (solunarDelta s now).1, acc.2 ++ (solunarDelta s now).2) := by
  unfold solunarRule solunarDelta specSolunarContribution
  split_ifs <;> simp_all

lemma goldenRule_eq (g : GoldenStatus) (acc : Int × List String) :
    goldenRule g acc = (acc.1 + (goldenDelta g).1, acc.2 ++ (goldenDelta g).2) := by
  unfold goldenRule goldenDelta
  split_ifs <;> simp

lemma windRule_eq (w : ℚ) (acc : Int × List String) :
    windRule w acc = (acc.1 + (windDelta w).1, acc.2 ++ (windDelta w).2) := by
  unfold windRule windDelta
  split_ifs <;> simp [sub_eq_add_neg]

lemma cloudRule_eq (c : ℚ) (acc : Int × List String) :
    cloudRule c acc = (acc.1 + (cloudDelta c).1, acc.2 ++ (cloudDelta c).2) := by
  unfold cloudRule cloudDelta
  split_ifs <;> simp

lemma calculatePikeActivity_decomposed (weather : WeatherData)
    (solunar : SolunarData) (now : Int) :
    calculatePikeActivity weather solunar now =
      { score := max 0 (min 5
          (2 + (pressureDelta weather.pressureTrend).1
             + (solunarDelta solunar now).1
             + (goldenDelta (checkGoldenHour now solunar.sun.rise solunar.sun.set)).1
             + (windDelta weather.current.windSpeed).1
             + (cloudDelta weather.current.cloudCover).1))
        label := (config (max 0 (min 5
          (2 + (pressureDelta weather.pressureTrend).1
             + (solunarDelta solunar now).1
             + (goldenDelta (checkGoldenHour now solunar.sun.rise solunar.sun.set)).1
             + (windDelta weather.current.windSpeed).1
             + (cloudDelta weather.current.cloudCover).1)))).1
        color := (config (max 0 (min 5
          (2 + (pressureDelta weather.pressureTrend).1
             + (solunarDelta solunar now).1
             + (goldenDelta (checkGoldenHour now solunar.sun.rise solunar.sun.set)).1
             + (windDelta weather.current.windSpeed).1
             + (cloudDelta weather.current.cloudCover).1)))).2
        mainFactor :=
          ((pressureDelta weather.pressureTrend).2
            ++ (solunarDelta solunar now).2
            ++ (goldenDelta (checkGoldenHour now solunar.sun.rise solunar.sun.set)).2
            ++ (windDelta weather.current.windSpeed).2
            ++ (cloudDelta weather.current.cloudCover).2).head?.getD
            "Conditions neutres"
        isGoldenHour :=
          (checkGoldenHour now solunar.sun.rise solunar.sun.set).isGolden } := by
  simp only [calculatePikeActivity, pressureRule_eq, solunarRule_eq,
    goldenRule_eq, windRule_eq, cloudRule_eq]
  simp [add_assoc, List.append_assoc]

/- ==== C5 ==== -/

set_option maxHeartbeats 2000000 in
lemma mainFactor_eq_spec (weather : WeatherData) (solunar : SolunarData)
    (currentTime : Int) :
    (calculatePikeActivity weather solunar currentTime).mainFactor
      = specMainFactor weather solunar currentTime := by
  rw [calculatePikeActivity_decomposed]
  simp only [specMainFactor, pressureDelta, solunarDelta,
    specSolunarContribution, goldenDelta, windDelta, cloudDelta]
  split_ifs <;> rfl

/-- C5: the reported main factor is the factor string of the first rule
that fires in the fixed order (pressure trend, solunar proximity, golden
hour, wind, cloud cover), with the neutral fallback when no rule fires;
in particular each recognised pressure trend forces the pressure rule's
string regardless of later, larger contributors. -/
theorem c5_main_factor_first_rule (weather : WeatherData)
    (solunar : SolunarData) (currentTime : Int) :
    (calculatePikeActivity weather solunar currentTime).mainFactor
      = specMainFactor weather solunar currentTime ∧
    (weather.pressureTrend = "stable" →
      (calculatePikeActivity weather solunar currentTime).mainFactor
        = "Pression stable") ∧
    (weather.pressureTrend = "rising" →
      (calculatePikeActivity weather solunar currentTime).mainFactor
        = "Pression en hausse") ∧
    (weather.pressureTrend = "falling" →
      (calculatePikeActivity weather solunar currentTime).mainFactor
        = "Pression en baisse") := by
  have h := mainFactor_eq_spec weather solunar currentTime
  refine ⟨h, ?_, ?_, ?_⟩ <;> intro ht <;> rw [h] <;>
    simp [specMainFactor, ht]

/-- Witness for C5 at a concrete input: with stable pressure and a later
rule (cloud cover) also firing, the reported factor is the pressure
rule's string. -/
theorem c5_main_factor_first_rule_witness :
    ({ current := { temperature := 0, feelsLike := 0, windSpeed := 10
                    windDirection := 0, windGusts := 0, pressure := 0
                    cloudCover := 80, precipitation := 0, weatherCode := 0 }
       pressureTrend := "stable" } : WeatherData).pressureTrend = "stable" ∧
    (calculatePikeActivity
        { current := { temperature := 0, feelsLike := 0, windSpeed := 10
                       windDirection := 0, windGusts := 0, pressure := 0
                       cloudCover := 80, precipitation := 0, weatherCode := 0 }
          pressureTrend := "stable" }
        (sunOnlySolunar 0 0) 10000000000).mainFactor = "Pression stable" :=
  ⟨rfl,
   (c5_main_factor_first_rule
      { current := { temperature := 0, feelsLike := 0, windSpeed := 10
                     windDirection := 0, windGusts := 0, pressure := 0
                     cloudCover := 80, precipitation := 0, weatherCode := 0 }
        pressureTrend := "stable" }
      (sunOnlySolunar 0 0) 10000000000).2.1 rfl⟩

/- ==== C2 ==== -/

lemma getMinutesUntilPeriod_eq_specDistance (now : Int) :
    ∀ (periods : List SolunarPeriod),
      List.Pairwise (fun a b => a.start ≤ b.start) periods →
      getMinutesUntilPeriod periods now = specDistance periods now := by
  intro periods
  induction periods with
  | nil => intro _; rfl
  | cons p rest ih =>
    intro hp
    rw [List.pairwise_cons] at hp
    obtain ⟨hle, hrest⟩ := hp
    by_cases hcont : p.start ≤ now ∧ now ≤ p.endTime
    · have hfind1 : List.find?
          (fun q : SolunarPeriod => decide (q.start ≤ now ∧ now ≤ q.endTime))
          (p :: rest) = some p := by simp [hcont]
      simp only [getMinutesUntilPeriod, if_pos hcont]
      unfold specDistance
      rw [hfind1]
    · by_cases hfut : now < p.start
      · have hfind1 : List.find?
            (fun q : SolunarPeriod => decide (q.start ≤ now ∧ now ≤ q.endTime))
            (p :: rest) = none := by
          rw [List.find?_eq_none]
          intro q hq
          simp only [decide_eq_true_eq]
          rcases List.mem_cons.mp hq with h | h
          · subst h; exact hcont
          · have := hle q h
            intro hc
            omega
        have hfind2 : List.find?
            (fun q : SolunarPeriod => decide (now < q.start)) (p :: rest)
            = some p := by simp [hfut]
        simp only [getMinutesUntilPeriod, if_neg hcont, if_pos hfut]
        unfold specDistance
        rw [hfind1, hfind2]
      · have hfind1 : List.find?
            (fun q : SolunarPeriod => decide (q.start ≤ now ∧ now ≤ q.endTime))
            (p :: rest)
            = List.find?
                (fun q : SolunarPeriod => decide (q.start ≤ now ∧ now ≤ q.endTime))
                rest := by simp [hcont]
        have hfind2 : List.find?
            (fun q : SolunarPeriod => decide (now < q.start)) (p :: rest)
            = List.find?
                (fun q : SolunarPeriod => decide (now < q.start)) rest := by
          simp [hfut]
        have h' := ih hrest
        unfold specDistance at h'
        simp only [getMinutesUntilPeriod, if_neg hcont, if_neg hfut]
        unfold specDistance
        rw [hfind1, hfind2]
        exact h'

/-- C2: on chronologically ordered period lists the scorer's single-scan
distance computation agrees with the spec's description (distance 0 and
ongoing for the first containing period, else floored whole minutes to the
first strictly-future start, else infinite), and the solunar stage adds
exactly the spec's sub-rule contribution — +2 for major ongoing/≤30, else
+1 for major ≤120, else +1 for minor ongoing/≤30, else nothing — with at
most one sub-rule firing, major before minor. -/
theorem c2_period_distance_and_subrules :
    (∀ (periods : List SolunarPeriod) (now : Int),
      List.Pairwise (fun a b => a.start ≤ b.start) periods →
      getMinutesUntilPeriod periods now = specDistance periods now) ∧
    (∀ (solunar : SolunarData) (now : Int) (acc : Int × List String),
      List.Pairwise (fun a b => a.start ≤ b.start) solunar.major →
      List.Pairwise (fun a b => a.start ≤ b.start) solunar.minor →
      solunarRule solunar now acc
        = (acc.1 + (specSolunarContribution (specDistance solunar.major now)
              (specDistance solunar.minor now)).1,
           acc.2 ++ (specSolunarContribution (specDistance solunar.major now)
              (specDistance solunar.minor now)).2)) := by
  constructor
  · intro periods now h
    exact getMinutesUntilPeriod_eq_specDistance now periods h
  · intro s now acc h1 h2
    rw [solunarRule_eq]
    unfold solunarDelta
    rw [getMinutesUntilPeriod_eq_specDistance now s.major h1,
        getMinutesUntilPeriod_eq_specDistance now s.minor h2]

/-- Witness for C2: the distance computation evaluated on a concrete
ordered period list. -/
theorem c2_period_distance_and_subrules_witness :
    List.Pairwise (fun a b : SolunarPeriod => a.start ≤ b.start)
      sortedPeriods ∧
    getMinutesUntilPeriod sortedPeriods 900000
      = specDistance sortedPeriods 900000 :=
  ⟨by decide,
   c2_period_distance_and_subrules.1 sortedPeriods 900000 (by decide)⟩

/- ==== C4 / C6 ==== -/

lemma createTimeWindow_120 (t : Int) :
    createTimeWindow t 120 = (t - 3600000, t + 3600000) := by
  unfold createTimeWindow
  norm_num

lemma createTimeWindow_60 (t : Int) :
    createTimeWindow t 60 = (t - 1800000, t + 1800000) := by
  unfold createTimeWindow
  norm_num

lemma getSolunarData_major (p : AstroProvider) :
    (getSolunarData p).major
      = match findMoonTransit p.moonAltitude p.startOfDay with
        | none => []
        | some t =>
          [{ start := t - 3600000, endTime := t + 3600000, type := "transit" },
           { start := t + 43200000 - 3600000, endTime := t + 43200000 + 3600000
             type := "nadir" }] := by
  simp only [getSolunarData, createTimeWindow_120]
  cases findMoonTransit p.moonAltitude p.startOfDay <;> norm_num

lemma getSolunarData_minor (p : AstroProvider) :
    (getSolunarData p).minor
      = (match p.moonRise with
         | some c =>
           [{ start := c - 1800000, endTime := c + 1800000, type := "moonrise" }]
         | none => ([] : List SolunarPeriod)) ++
        (match p.moonSet with
         | some c =>
           [{ start := c - 1800000, endTime := c + 1800000, type := "moonset" }]
         | none => []) := by
  simp only [getSolunarData, createTimeWindow_60]

/-- C4: a found transit `T` yields exactly the major periods
`[T − 60min, T + 60min]` (transit) and the 120-minute window centred on
`T + 12h` (nadir); a null transit yields an empty major array; each
present moonrise/moonset instant yields one 60-minute minor window centred
on it, and an absent one yields no minor period of that type, never an
error. -/
theorem c4_period_windows (p : AstroProvider) :
    (∀ T, findMoonTransit p.moonAltitude p.startOfDay = some T →
      (getSolunarData p).major =
        [{ start := T - 3600000, endTime := T + 3600000, type := "transit" },
         { start := T + 43200000 - 3600000, endTime := T + 43200000 + 3600000
           type := "nadir" }]) ∧
    (findMoonTransit p.moonAltitude p.startOfDay = none →
      (getSolunarData p).major = []) ∧
    (∀ c, p.moonRise = some c →
      ({ start := c - 1800000, endTime := c + 1800000
         type := "moonrise" } : SolunarPeriod) ∈ (getSolunarData p).minor) ∧
    (∀ c, p.moonSet = some c →
      ({ start := c - 1800000, endTime := c + 1800000
         type := "moonset" } : SolunarPeriod) ∈ (getSolunarData p).minor) ∧
    (p.moonRise = none →
      ∀ q ∈ (getSolunarData p).minor, q.type ≠ "moonrise") ∧
    (p.moonSet = none →
      ∀ q ∈ (getSolunarData p).minor, q.type ≠ "moonset") ∧
    ((getSolunarData p).minor.length
      = (if p.moonRise.isSome then 1 else 0)
        + (if p.moonSet.isSome then 1 else 0)) := by
  refine ⟨?_, ?_, ?_, ?_, ?_, ?_, ?_⟩
  · intro T hT
    rw [getSolunarData_major, hT]
  · intro h
    rw [getSolunarData_major, h]
  · intro c hc
    rw [getSolunarData_minor, hc]
    cases p.moonSet <;> simp
  · intro c hc
    rw [getSolunarData_minor, hc]
    cases p.moonRise <;> simp
  · intro h q hq
    rw [getSolunarData_minor, h] at hq
    cases hs : p.moonSet <;> rw [hs] at hq <;> simp_all
  · intro h q hq
    rw [getSolunarData_minor, h] at hq
    cases hr : p.moonRise <;> rw [hr] at hq <;> simp_all
  · rw [getSolunarData_minor]
    cases p.moonRise <;> cases p.moonSet <;> simp

set_option maxRecDepth 100000 in
/-- Witness for C4 at a concrete provider (constant altitude curve, both
moon events present). -/
theorem c4_period_windows_witness :
    chronoProvider.moonRise = some 36000000 ∧
    ({ start := 36000000 - 1800000, endTime := 36000000 + 1800000
       type := "moonrise" } : SolunarPeriod)
      ∈ (getSolunarData chronoProvider).minor ∧
    findMoonTransit chronoProvider.moonAltitude chronoProvider.startOfDay
      = some (-600000) ∧
    (getSolunarData chronoProvider).major =
      [{ start := -600000 - 3600000, endTime := -600000 + 3600000
         type := "transit" },
       { start := -600000 + 43200000 - 3600000
         endTime := -600000 + 43200000 + 3600000, type := "nadir" }] :=
  ⟨rfl, (c4_period_windows chronoProvider).2.2.1 36000000 rfl,
   by decide, (c4_period_windows chronoProvider).1 (-600000) (by decide)⟩

/-- C6 counterexample: with moonset (02:00) before moonrise (10:00) the
minor array is emitted moonrise first and is not ordered chronologically
by start time. -/
theorem c6_counterexample :
    invertedMoonProvider.moonRise = some 36000000 ∧
    invertedMoonProvider.moonSet = some 7200000 ∧
    (7200000 : Int) < 36000000 ∧
    ¬ List.Chain' (fun a b : SolunarPeriod => a.start ≤ b.start)
        (getSolunarData invertedMoonProvider).minor := by
  refine ⟨rfl, rfl, by decide, ?_⟩
  have h : (getSolunarData invertedMoonProvider).minor
      = [{ start := 34200000, endTime := 37800000, type := "moonrise" },
         { start := 5400000, endTime := 9000000, type := "moonset" }] := by
    decide
  rw [h]
  simp only [List.chain'_cons, List.chain'_singleton, and_true]
  decide

/-- C6 amended: the major array is always chronologically ordered by start
time; the minor array is chronologically ordered whenever at most one moon
event is present, or whenever moonrise ≤ moonset — but not in general,
since the source always emits the moonrise window before the moonset
window. -/
theorem c6_ordering (p : AstroProvider) :
    List.Chain' (fun a b : SolunarPeriod => a.start ≤ b.start)
      (getSolunarData p).major ∧
    ((p.moonRise = none ∨ p.moonSet = none) →
      List.Chain' (fun a b : SolunarPeriod => a.start ≤ b.start)
        (getSolunarData p).minor) ∧
    (∀ r s, p.moonRise = some r → p.moonSet = some s → r ≤ s →
      List.Chain' (fun a b : SolunarPeriod => a.start ≤ b.start)
        (getSolunarData p).minor) := by
  refine ⟨?_, ?_, ?_⟩
  · rw [getSolunarData_major]
    cases findMoonTransit p.moonAltitude p.startOfDay with
    | none => simp
    | some t =>
      simp only [List.chain'_cons, List.chain'_singleton, and_true]
      omega
  · intro h
    rw [getSolunarData_minor]
    rcases h with h | h <;> rw [h]
    · cases p.moonSet <;> simp
    · cases p.moonRise <;> simp
  · intro r s hr hs hrs
    rw [getSolunarData_minor, hr, hs]
    simp only [List.cons_append, List.nil_append, List.chain'_cons,
      List.chain'_singleton, and_true]
    omega

/-- Witness for the amended C6 at a concrete provider with moonrise before
moonset. -/
theorem c6_ordering_witness :
    chronoProvider.moonRise = some 36000000 ∧
    chronoProvider.moonSet = some 72000000 ∧
    (36000000 : Int) ≤ 72000000 ∧
    List.Chain' (fun a b : SolunarPeriod => a.start ≤ b.start)
      (getSolunarData chronoProvider).minor :=
  ⟨rfl, rfl, by decide,
   (c6_ordering chronoProvider).2.2 36000000 72000000 rfl rfl (by decide)⟩

/- ==== C3 ==== -/

lemma foldl_scanStep_from (alt : Int → ℚ) :
    ∀ (ts : List Int) (m : ℚ) (t : Int),
      ∃ m2 t2,
        ts.foldl (scanStep alt) (some m, some t) = (some m2, some t2) ∧
        ((m2 = m ∧ t2 = t ∧ ∀ u ∈ ts, alt u ≤ m) ∨
         (∃ pre post, ts = pre ++ t2 :: post ∧ m2 = alt t2 ∧ m < m2 ∧
            (∀ u ∈ pre, alt u < m2) ∧ (∀ u ∈ post, alt u ≤ m2))) := by
  intro ts
  induction ts with
  | nil =>
    intro m t
    exact ⟨m, t, rfl, Or.inl ⟨rfl, rfl, by simp⟩⟩
  | cons x rest ih =>
    intro m t
    by_cases hx : m < alt x
    · have hstep : scanStep alt (some m, some t) x = (some (alt x), some x) := by
        simp [scanStep, hx]
      rw [List.foldl_cons, hstep]
      obtain ⟨m2, t2, heq, hcases⟩ := ih (alt x) x
      refine ⟨m2, t2, heq, Or.inr ?_⟩
      rcases hcases with ⟨hm, ht, hall⟩ | ⟨pre, post, hsplit, hm2, hlt, hpre, hpost⟩
      · subst hm
        subst ht
        exact ⟨[], rest, rfl, rfl, hx, by simp, hall⟩
      · refine ⟨x :: pre, post, by rw [hsplit, List.cons_append], hm2, lt_trans hx hlt, ?_, hpost⟩
        intro u hu
        rcases List.mem_cons.mp hu with h | h
        · subst h; exact hlt
        · exact hpre u h
    · have hstep : scanStep alt (some m, some t) x = (some m, some t) := by
        simp [scanStep, hx]
      rw [List.foldl_cons, hstep]
      obtain ⟨m2, t2, heq, hcases⟩ := ih m t
      refine ⟨m2, t2, heq, ?_⟩
      rcases hcases with ⟨hm, ht, hall⟩ | ⟨pre, post, hsplit, hm2, hlt, hpre, hpost⟩
      · refine Or.inl ⟨hm, ht, ?_⟩
        intro u hu
        rcases List.mem_cons.mp hu with h | h
        · subst h; exact not_lt.mp hx
        · exact hall u h
      · refine Or.inr ⟨x :: pre, post, by rw [hsplit, List.cons_append], hm2, hlt, ?_, hpost⟩
        intro u hu
        rcases List.mem_cons.mp hu with h | h
        · subst h; exact lt_of_le_of_lt (not_lt.mp hx) hlt
        · exact hpre u h

lemma scanMax_spec (alt : Int → ℚ) (x : Int) (rest : List Int) :
    ∃ t2 pre post,
      scanMax alt (x :: rest) = (some (alt t2), some t2) ∧
      x :: rest = pre ++ t2 :: post ∧
      (∀ u ∈ pre, alt u < alt t2) ∧ (∀ u ∈ post, alt u ≤ alt t2) := by
  unfold scanMax
  rw [List.foldl_cons]
  have hstep : scanStep alt (none, none) x = (some (alt x), some x) := rfl
  rw [hstep]
  obtain ⟨m2, t2, heq, hcases⟩ := foldl_scanStep_from alt rest (alt x) x
  rcases hcases with ⟨hm, ht, hall⟩ | ⟨pre, post, hsplit, hm2, hlt, hpre, hpost⟩
  · rw [hm, ht] at heq
    exact ⟨x, [], rest, heq, rfl, by simp, hall⟩
  · subst hm2
    refine ⟨t2, x :: pre, post, heq, by rw [hsplit, List.cons_append], ?_, hpost⟩
    intro u hu
    rcases List.mem_cons.mp hu with h | h
    · subst h; exact hlt
    · exact hpre u h

set_option maxRecDepth 100000 in
/-- C3: for every altitude sampler and local midnight, the transit search
scans the 144-sample 10-minute grid of the day tracking the running
maximum under strict `>`, rescans the 21-sample 1-minute grid around the
coarse maximum, and returns the earliest refined sample achieving the
maximal refined altitude (every earlier refined sample is strictly
smaller); it never returns null in the rational model (whose altitudes all
exceed `-Infinity`); and on a synthetic altitude curve with a single known
maximum at minute 433 of the day it returns exactly that minute. -/
theorem c3_transit_search :
    (∀ (alt : Int → ℚ) (startOfDay : Int),
      ∃ c t, (scanMax alt (coarseTimes startOfDay)).2 = some c ∧
        c ∈ coarseTimes startOfDay ∧
        (∀ u ∈ coarseTimes startOfDay, alt u ≤ alt c) ∧
        findMoonTransit alt startOfDay = some t ∧
        (∃ pre post, refineTimes c = pre ++ t :: post ∧
          (∀ u ∈ pre, alt u < alt t) ∧ (∀ u ∈ post, alt u ≤ alt t))) ∧
    findMoonTransit (syntheticAlt 25980000) 0 = some 25980000 := by
  constructor
  · intro alt startOfDay
    have hlen : (coarseTimes startOfDay).length = 144 := by
      unfold coarseTimes
      rw [List.length_map, List.length_range]
    have hne : coarseTimes startOfDay ≠ [] :=
      List.ne_nil_of_length_pos (by omega)
    obtain ⟨x, rest, hx⟩ := List.exists_cons_of_ne_nil hne
    obtain ⟨c, pre, post, hscan, hsplit, hpre, hpost⟩ := scanMax_spec alt x rest
    have hlen2 : (refineTimes c).length = 21 := by
      unfold refineTimes
      rw [List.length_map, List.length_range]
    have hne2 : refineTimes c ≠ [] :=
      List.ne_nil_of_length_pos (by omega)
    obtain ⟨y, rrest, hy⟩ := List.exists_cons_of_ne_nil hne2
    obtain ⟨t, pre2, post2, hscan2, hsplit2, hpre2, hpost2⟩ :=
      scanMax_spec alt y rrest
    have hft : findMoonTransit alt startOfDay = some t := by
      unfold findMoonTransit
      rw [hx]
      simp only [hscan]
      rw [hy]
      simp only [hscan2]
      rfl
    refine ⟨c, t, ?_, ?_, ?_, hft, ⟨pre2, post2, by rw [hy, hsplit2], hpre2, hpost2⟩⟩
    · rw [hx]
      simp only [hscan]
    · rw [hx, hsplit]
      simp
    · intro u hu
      rw [hx, hsplit] at hu
      rcases List.mem_append.mp hu with h | h
      · exact le_of_lt (hpre u h)
      · rcases List.mem_cons.mp h with h | h
        · subst h; exact le_refl _
        · exact hpost u h
  · decide

/- ==== C7 ==== -/

lemma jsMod1_bounds (x : ℚ) : -1 < jsMod1 x ∧ jsMod1 x < 1 := by
  unfold jsMod1 jsTrunc
  by_cases hx : x < 0
  · rw [if_pos hx]
    have h1 := Int.ceil_lt_add_one x
    have h2 := Int.le_ceil x
    constructor <;> push_cast at h1 h2 ⊢ <;> linarith
  · rw [if_neg hx]
    have h1 := Int.lt_floor_add_one x
    have h2 := Int.floor_le x
    constructor <;> push_cast at h1 h2 ⊢ <;> linarith

lemma wrap_bounds (x : ℚ) :
    0 ≤ jsMod1 (jsMod1 x + 1) ∧ jsMod1 (jsMod1 x + 1) < 1 := by
  obtain ⟨h1, _⟩ := jsMod1_bounds x
  set y := jsMod1 x + 1 with hy0
  have hy : ¬ y < 0 := by
    rw [hy0]
    linarith
  unfold jsMod1 jsTrunc
  rw [if_neg hy]
  have ha := Int.floor_le y
  have hb := Int.lt_floor_add_one y
  constructor <;> linarith

lemma getMoonPhaseName_eq_table (phase : ℚ) :
    getMoonPhaseName phase = specPhaseTable (jsMod1 (jsMod1 phase + 1)) := by
  unfold getMoonPhaseName specPhaseTable
  norm_num

/-- C7 counterexample: the classifier returns the French category string
`"Nouvelle lune"` at phase 0, not `"New"` as the claim's category names
state. -/
theorem c7_counterexample :
    getMoonPhaseName 0 = "Nouvelle lune" ∧ "Nouvelle lune" ≠ "New" := by
  constructor
  · norm_num [getMoonPhaseName, jsMod1, jsTrunc]
  · decide

/-- C7 amended: the phase is first wrapped into `[0, 1)` by
`((phase % 1) + 1) % 1`, then classified into the 8 fixed categories (in
order `Nouvelle lune`, `Premier croissant`, `Premier quartier`, `Gibbeuse
croissante`, `Pleine lune`, `Gibbeuse décroissante`, `Dernier quartier`,
`Dernier croissant`) by the boundaries 0.0625, 0.1875, 0.3125, 0.4375,
0.5625, 0.6875, 0.8125, 0.9375, each boundary belonging to the next
category; in particular 0 gives `Nouvelle lune`, 0.25 `Premier quartier`,
0.5 `Pleine lune`, 0.75 `Dernier quartier`, the boundary 0.0625 `Premier
croissant`, and 0.9375 wraps to `Nouvelle lune`. -/
theorem c7_moon_phase_categories :
    (∀ phase : ℚ,
      0 ≤ jsMod1 (jsMod1 phase + 1) ∧ jsMod1 (jsMod1 phase + 1) < 1) ∧
    (∀ phase : ℚ,
      getMoonPhaseName phase = specPhaseTable (jsMod1 (jsMod1 phase + 1))) ∧
    getMoonPhaseName 0 = "Nouvelle lune" ∧
    getMoonPhaseName (1/4) = "Premier quartier" ∧
    getMoonPhaseName (1/2) = "Pleine lune" ∧
    getMoonPhaseName (3/4) = "Dernier quartier" ∧
    getMoonPhaseName (1/16) = "Premier croissant" ∧
    getMoonPhaseName (15/16) = "Nouvelle lune" := by
  refine ⟨wrap_bounds, getMoonPhaseName_eq_table, ?_, ?_, ?_, ?_, ?_, ?_⟩ <;>
    norm_num [getMoonPhaseName, jsMod1, jsTrunc]
